import Mathlib

/-!
Verification development for the Fintel asset-tracking service
(`src/api`).  The Python source is shallowly embedded: database state
becomes an explicit `Db` record, SQLAlchemy sessions become explicit
state passing, raised exceptions become `Except`, NaN cells of pandas
frames become `none : Option Rat`, and the results of network calls
(`yfinance.download`, `Ticker(...).info`) become oracle arguments, since
those calls are pure inputs from the program's point of view.
-/

namespace Fintel

/-- `source` enum of `price_points` (`db_models.py`, `data_source_type`). -/
inductive Source
  | yahoo_finance
  | alpha_vantage
deriving DecidableEq, Repr

/-- `processing_status` enum of `assets` (`db_models.py`, `asset_status_type`). -/
inductive Status
  | pending
  | active
deriving DecidableEq, Repr

/-- A row of the `assets` table (`db_models.py`, `AssetsDbTable`): only the
columns the embedded operations read or write. -/
structure AssetRow where
  id : Nat
  symbol : String
  description : Option String
  processing_status : Status
deriving DecidableEq, Repr

/-- A row of the `price_points` table (`db_models.py`, `PricePointsDbTable`).
`open_price` .. `close_price` are `NOT NULL` columns, `adjusted_close` and
`volume` are nullable, hence `Option`.  Dates are encoded as integers
(days); decimals as `Rat`. -/
structure PricePointRow where
  asset_id : Nat
  date : Int
  open_price : Rat
  high_price : Rat
  low_price : Rat
  close_price : Rat
  adjusted_close : Option Rat
  volume : Option Rat
  source : Source
deriving DecidableEq, Repr

/-- The shared relational store: the `assets` and `price_points` tables.
(The `ai_models` and `predictions` tables are not touched by any of the
verified claims and are omitted from the state.) -/
structure Db where
  assets : List AssetRow
  pricePoints : List PricePointRow
deriving DecidableEq, Repr

/-- The `(asset_id, date, source)` tuple of the uniqueness constraint
`unique_asset_date_source` (`db_models.py` line 80). -/
def ppKey (r : PricePointRow) : Nat × Int × Source :=
  (r.asset_id, r.date, r.source)

/-- `true` iff the list of keys contains no duplicate (what the unique
constraint checks among the rows of one INSERT batch). -/
def keysNodup : List (Nat × Int × Source) → Bool
  | [] => true
  | k :: ks => !(decide (k ∈ ks)) && keysNodup ks

/-- `true` iff committing `rows` into `db.pricePoints` violates
`unique_asset_date_source`: some new row collides with a stored row, or
two new rows collide with each other. -/
def batchConflicts (db : Db) (rows : List PricePointRow) : Bool :=
  rows.any (fun r => db.pricePoints.any (fun q => ppKey q = ppKey r))
    || !(keysNodup (rows.map ppKey))

/-- One daily bar as returned by `yfinance.download` after
`reset_index` and the column renaming (`parallel.py` lines 82-85,
`request_handlers.py` lines 170-174). -/
structure Bar where
  date : Int
  open_price : Rat
  high_price : Rat
  low_price : Rat
  close_price : Rat
  adjusted_close : Rat
  volume : Rat
deriving DecidableEq, Repr

/-- Construction of a `PricePointsDbTable` record from one bar, with
`source="yahoo_finance"` (`parallel.py` lines 90-100,
`request_handlers.py` lines 179-189). -/
def mkPriceRow (assetId : Nat) (b : Bar) : PricePointRow :=
  { asset_id := assetId
    date := b.date
    open_price := b.open_price
    high_price := b.high_price
    low_price := b.low_price
    close_price := b.close_price
    adjusted_close := some b.adjusted_close
    volume := some b.volume
    source := Source.yahoo_finance }

/-- Outcome of a `yfinance.download` call, as seen by the caller:
the call raised, returned `None`, or returned a DataFrame holding the
listed bars (possibly zero of them). -/
inductive DownloadResult
  | exn
  | noneRes
  | frame (bars : List Bar)
deriving DecidableEq, Repr

/-- Outcome of the metadata/promotion block of
`_AppendHandler._fetch_from_yahoo_finance` (`request_handlers.py` lines
197-211): either some statement in the `try` block raised (`exn`), or
`Ticker(symbol).info.get("longName")` was obtained (`ok`, with `none`
when the key `longName` is absent). -/
inductive MetaResult
  | exn
  | ok (longName : Option String)
deriving DecidableEq, Repr

/-! ## Forecast trainer: `utils/lstm_model.py` -/

/-- One row of the dict list built by `train_lstm_model` (`lstm_model.py`
lines 169-179) and fed to `_prepare_training_data`.  After
`to_numeric(..., errors="coerce")` every cell is a number or NaN; a NaN
cell is `none`. -/
structure TrainRow where
  date : Int
  open_price : Option Rat
  high_price : Option Rat
  low_price : Option Rat
  close_price : Option Rat
  adjusted_close : Option Rat
  volume : Option Rat
deriving DecidableEq, Repr

/-- The dict comprehension of `train_lstm_model` (`lstm_model.py` lines
169-179): a stored price point becomes a dict of the seven listed
columns.  The four NOT NULL price columns are always numbers. -/
def toTrainRow (p : PricePointRow) : TrainRow :=
  { date := p.date
    open_price := some p.open_price
    high_price := some p.high_price
    low_price := some p.low_price
    close_price := some p.close_price
    adjusted_close := p.adjusted_close
    volume := p.volume }

/-- `base_columns` of `_prepare_training_data` (`lstm_model.py` lines 87-90). -/
def base_columns : List String :=
  ["open_price", "high_price", "low_price",
   "close_price", "adjusted_close", "volume"]

/-- The feature columns hard-coded at `lstm_model.py` lines 105-108. -/
def feature_base_columns : List String :=
  ["open_price", "high_price", "low_price",
   "close_price", "volume"]

/-- `new_features` exactly as written at `lstm_model.py` line 111: due to
the quoting of that line, the list holds a single string (the apostrophes
of the Python literal are written `\x27` here). -/
def new_features : List String :=
  ["SMA_10\x27, \x27EMA_10\x27, \x27RSI\x27, \x27price_change_1d\x27, \x27price_change_5d\x27, \x27volatility_10d"]

/-- The six engineered columns added by `_create_advanced_features`
(`lstm_model.py` lines 59-66). -/
def advancedColumns : List String :=
  ["SMA_10", "EMA_10", "RSI", "price_change_1d", "price_change_5d", "volatility_10d"]

/-- The column names of the frame after `_create_advanced_features`: the
seven input columns of the dict list plus the six engineered columns. -/
def dataColumnsAfterFeatures : List String :=
  "date" :: base_columns ++ advancedColumns

/-- `feature_columns` after the extension at `lstm_model.py` line 112:
the five base feature columns plus whichever member of `new_features` is
a column of the frame. -/
def feature_columns : List String :=
  feature_base_columns ++ new_features.filter (fun f => dataColumnsAfterFeatures.contains f)

/-- `existing_columns` (`lstm_model.py` lines 120 and 138): the members
of `feature_columns` present among the frame columns. -/
def existing_columns : List String :=
  feature_columns.filter (fun c => dataColumnsAfterFeatures.contains c)

/-- The base column of a `TrainRow` named by a string; `none` for names
that are not columns of the input dict (the engineered columns only
exist in the pandas frame, and `existing_columns` provably never selects
them, as the C10 theorem below proves). -/
def fieldOfColumn : String → Option (TrainRow → Option Rat)
  | "open_price" => some (fun r => r.open_price)
  | "high_price" => some (fun r => r.high_price)
  | "low_price" => some (fun r => r.low_price)
  | "close_price" => some (fun r => r.close_price)
  | "adjusted_close" => some (fun r => r.adjusted_close)
  | "volume" => some (fun r => r.volume)
  | _ => none

/-- `MinMaxScaler.fit_transform` on one column: each finite cell `x`
becomes `(x - min) / (max - min)`, a zero range is replaced by `1`
(sklearn `_handle_zeros_in_scale`), NaN cells stay NaN and are ignored
by `fit`. -/
def scaleColumn (xs : List (Option Rat)) : List (Option Rat) :=
  let finite := xs.filterMap id
  match finite.min?, finite.max? with
  | some lo, some hi =>
    let d := if hi - lo = 0 then 1 else hi - lo
    xs.map (fun x => x.map (fun v => (v - lo) / d))
  | _, _ => xs.map (fun _ => none)

/-- The scaled feature matrix, row-major (`lstm_model.py` line 123
overwrites `data[existing_columns]` with the scaled values; line 140
then reads `data.iloc[i:i+10][existing_columns]`).  Every row lists the
cells of `existing_columns` in order. -/
def scaledFeatureRows (rows : List TrainRow) : List (List (Option Rat)) :=
  let cols := existing_columns.filterMap
    (fun n => (fieldOfColumn n).map (fun f => scaleColumn (rows.map f)))
  (List.range rows.length).map (fun i => cols.map (fun c => c.getD i none))

/-- The `adjusted_close_normalized` column (`lstm_model.py` lines
129-130): the target scaler applied to the raw `adjusted_close` column
(which line 123 does not overwrite, `adjusted_close` not being a feature
column). -/
def targetColumn (rows : List TrainRow) : List (Option Rat) :=
  scaleColumn (rows.map (fun r => r.adjusted_close))

/-- `sequence_length` (`lstm_model.py` line 134). -/
def sequence_length : Nat := 10

/-- `np.isnan(sequence).any()` for one window. -/
def seqHasNaN (w : List (List (Option Rat))) : Bool :=
  w.any (fun row => row.any (fun c => c.isNone))

/-- The sequence-building loop of `_prepare_training_data` (`lstm_model.py`
lines 133-150): for `i in range(len(data) - 10)` take the window of ten
feature rows and the normalized target of row `i + 10`, keeping the pair
only when neither holds a NaN. -/
def makeSequences (rows : List TrainRow) :
    List (List (List (Option Rat))) × List (Option Rat) :=
  let feats := scaledFeatureRows rows
  let tgts := targetColumn rows
  let window := fun i => (feats.drop i).take sequence_length
  let kept := (List.range (rows.length - sequence_length)).filter
    (fun i => !(seqHasNaN (window i) || (tgts.getD (i + sequence_length) none).isNone))
  (kept.map window, kept.map (fun i => tgts.getD (i + sequence_length) none))

/-- `_prepare_training_data` (`lstm_model.py` lines 70-156) as a fallible
function.  An empty input list gives a frame without columns, so the
column check of line 95 raises; otherwise the function raises the
`ValueError` of line 154 exactly when zero sequences were produced.
(The `predictions` argument of the Python function is never read by its
body and is dropped; the model-fitting code after line 156 is reached
only on `.ok`.) -/
def prepareTrainingData (rows : List TrainRow) :
    Except String (List (List (List (Option Rat))) × List (Option Rat)) :=
  if rows.isEmpty then
    Except.error "Missing required column: open_price"
  else
    let Xy := makeSequences rows
    if Xy.1.length = 0 || Xy.2.length = 0 then
      Except.error "No valid sequences could be created"
    else
      Except.ok Xy

/-- Insertion into a list kept sorted by ascending date. -/
def insertByDate (r : PricePointRow) : List PricePointRow → List PricePointRow
  | [] => [r]
  | q :: qs => if r.date ≤ q.date then r :: q :: qs else q :: insertByDate r qs

/-- `order_by(PricePointsDbTable.date.asc())`. -/
def sortByDate (l : List PricePointRow) : List PricePointRow :=
  l.foldr insertByDate []

/-- `train_lstm_model(asset_id, db_session)` (`lstm_model.py` lines
158-197), up to the point that decides every verified claim: the asset's
price points are read in ascending date order, turned into dicts, and
passed to `_prepare_training_data`, whose `ValueError` propagates to the
caller (there is no `try` around it; the "Skipping asset" branch of
lines 195-197 is unreachable because `_prepare_training_data` already
raised when `X` is empty).  On success the model fitting and persistence
of lines 199-332 run; they touch only the `ai_models` and `predictions`
tables, which are outside the embedded state, so the store is returned
unchanged. -/
def train_lstm_model (assetId : Nat) (db : Db) : Except String Db :=
  let pps := sortByDate (db.pricePoints.filter (fun p => p.asset_id = assetId))
  match prepareTrainingData (pps.map toTrainRow) with
  | Except.error e => Except.error e
  | Except.ok _ => Except.ok db

/-! ## Refresh scheduler: `utils/parallel.py` -/

/-- The bar-storage block of `DataAndModelUpdater._fetch_from_yfinance`
(`parallel.py` lines 87-108): every row is added and one `commit` is
issued; an `IntegrityError` (the uniqueness constraint) or any other
exception rolls the whole batch back, is logged, and is not re-raised,
leaving the store unchanged. -/
def commitPriceBatch (db : Db) (rows : List PricePointRow) : Db :=
  if batchConflicts db rows then db
  else { db with pricePoints := db.pricePoints ++ rows }

/-- `DataAndModelUpdater._fetch_from_yfinance` (`parallel.py` lines
72-108) for one asset, with the download outcome as an oracle: a raised
download, a `None` result, and an empty frame each return with the store
untouched; a non-empty frame is committed through `commitPriceBatch`.
The function never raises. -/
def schedFetchStep (db : Db) (assetId : Nat) (dl : DownloadResult) : Db :=
  match dl with
  | DownloadResult.exn => db
  | DownloadResult.noneRes => db
  | DownloadResult.frame bars =>
    if bars.isEmpty then db
    else commitPriceBatch db (bars.map (mkPriceRow assetId))

/-- The active-assets snapshot of `DataAndModelUpdater._run`
(`parallel.py` lines 56-57): the `(id, symbol)` pairs of the assets with
`processing_status="active"`, in listing order. -/
def activeAssets (db : Db) : List (Nat × String) :=
  (db.assets.filter (fun a => a.processing_status = Status.active)).map
    (fun a => (a.id, a.symbol))

/-- The per-iteration body of `DataAndModelUpdater._run` (`parallel.py`
lines 60-65) over a given asset snapshot: for each asset, run the fetch
helper (which swallows its own failures) and then `train_lstm_model`,
which is called with no surrounding `try` — an exception it raises
propagates out of the `for` loop, so the fold aborts at the first
training error and the remaining assets are not visited. -/
def refreshIterationBody (dl : Nat → DownloadResult) (assets : List (Nat × String))
    (db : Db) : Except String Db :=
  match assets with
  | [] => Except.ok db
  | a :: rest =>
    match train_lstm_model a.1 (schedFetchStep db a.1 (dl a.1)) with
    | Except.error e => Except.error e
    | Except.ok db1 => refreshIterationBody dl rest db1

/-- One full iteration of the refresh loop (`parallel.py` lines 54-65):
snapshot the active assets, then process them in order. -/
def refreshIteration (db : Db) (dl : Nat → DownloadResult) : Except String Db :=
  refreshIterationBody dl (activeAssets db) db

/-! ## Request handlers: `utils/request_handlers.py` -/

/-- `_AppendHandler._fetch_from_yahoo_finance` (`request_handlers.py`
lines 143-211), with the two network calls as oracles.
* Asset-id lookup: `first()` on a missing symbol returns `None` and the
  attribute access raises; the `except` logs and returns.
* A raised download or a `None` frame returns with no change.  There is
  no emptiness check: an empty frame falls through.
* The storage block commits the batch; on any exception (in particular
  the uniqueness constraint) it rolls back and returns, so promotion is
  not attempted.
* The promotion block sets `processing_status="active"` and the fetched
  description (`metadata.get("longName", "Description not available")`)
  in a separate commit; if it raises, only that commit is rolled back —
  the bars stay committed. -/
def fetchFromYahooFinance (db : Db) (symbol : String)
    (dl : DownloadResult) (meta : MetaResult) : Db :=
  match db.assets.find? (fun a => a.symbol = symbol) with
  | none => db
  | some a =>
    match dl with
    | DownloadResult.exn => db
    | DownloadResult.noneRes => db
    | DownloadResult.frame bars =>
      let rows := bars.map (mkPriceRow a.id)
      if batchConflicts db rows then db
      else
        let db1 := { db with pricePoints := db.pricePoints ++ rows }
        match meta with
        | MetaResult.exn => db1
        | MetaResult.ok longName =>
          let desc := longName.getD "Description not available"
          { db1 with assets := db1.assets.map (fun b =>
              if b.id = a.id then
                { b with processing_status := Status.active, description := some desc }
              else b) }

/-- `_AppendHandler._analyze_symbols_from_list` (`request_handlers.py`
lines 133-141): the fetch routine for each symbol in turn. -/
def analyzeSymbolsFromList (db : Db) (symbols : List String)
    (dl : String → DownloadResult) (meta : String → MetaResult) : Db :=
  match symbols with
  | [] => db
  | s :: rest => analyzeSymbolsFromList (fetchFromYahooFinance db s (dl s) (meta s)) rest dl meta

/-- One element of the JSON list body of a registration request: a
string, or any non-string JSON value. -/
inductive ReqElem
  | str (s : String)
  | nonstr
deriving DecidableEq, Repr

/-- Response bodies of `_AppendHandler.process`. -/
inductive RespBody
  | emptyObj
  | emptyListError
  | invalidSymbolError
  | registrationFailedError
deriving DecidableEq, Repr

/-- The validation/staging loop of `_AppendHandler.process`
(`request_handlers.py` lines 87-108).  `staged` holds the rows added to
the session but not yet committed; the duplicate query sees both
committed and staged rows (session autoflush).  A non-string element
stops the loop (`rollback` then the 400 return): the result is `none`.
Otherwise the staged rows and the list of symbols to analyze are
returned. -/
def registerLoop (db : Db) : Nat → List AssetRow → List String → List ReqElem →
    Option (List AssetRow × List String)
  | _, staged, toAnalyze, [] => some (staged, toAnalyze)
  | _, _, _, ReqElem.nonstr :: _ => none
  | nextId, staged, toAnalyze, ReqElem.str s :: rest =>
    if (db.assets ++ staged).any (fun a => a.symbol = s) then
      registerLoop db nextId staged toAnalyze rest
    else
      registerLoop db (nextId + 1)
        (staged ++ [{ id := nextId, symbol := s, description := none,
                      processing_status := Status.pending }])
        (toAnalyze ++ [s]) rest

/-- `_AppendHandler.process` for a POST whose body is a JSON list
(`request_handlers.py` lines 75-123).  `nextId` models the ids the
database assigns to the staged rows.  After a successful commit, line
114 dispatches the analysis with `threading.Thread(target=..., args=...).run()`:
`Thread.run` merely calls the target in the calling thread (only
`Thread.start` spawns), so the analysis runs synchronously here and its
effects are part of the state this function returns.  (The commit
itself can also raise, answered by the 500 branch of lines 119-123; a
commit of freshly staged rows has no failure in this state model, so
that branch is not reachable here.) -/
def appendProcess (db : Db) (nextId : Nat) (request : List ReqElem)
    (dl : String → DownloadResult) (meta : String → MetaResult) :
    RespBody × Nat × Db :=
  if request.isEmpty then (RespBody.emptyListError, 400, db)
  else
    match registerLoop db nextId [] [] request with
    | none => (RespBody.invalidSymbolError, 400, db)
    | some (staged, toAnalyze) =>
      let db1 : Db := { db with assets := db.assets ++ staged }
      let db2 := analyzeSymbolsFromList db1 toAnalyze dl meta
      (RespBody.emptyObj, 204, db2)

/-! ## Handler factory: `utils/request_handlers.py` lines 278-307 -/

/-- The endpoint name constants imported from `utils.constants`.
Modelled from the spec: the module `utils/constants.py` is not among the
source files; the spec names the recognized routes "symbols,
append/request, data" and `app.py` registers the routes `/symbols`,
`/request` and `/data`.  Only their mutual distinctness matters to the
factory. -/
def API_ENDPOINT_SYMBOLS : String := "symbols"

/-- See `API_ENDPOINT_SYMBOLS`. Modelled from the spec: the registration
route name. -/
def API_ENDPOINT_APPEND : String := "request"

/-- See `API_ENDPOINT_SYMBOLS`. Modelled from the spec: the price-data
route name. -/
def API_ENDPOINT_DATA : String := "data"

/-- The three concrete handler classes. -/
inductive Handler
  | symbolsHandler
  | appendHandler
  | dataHandler
deriving DecidableEq, Repr

/-- A raised Python `TypeError`. -/
inductive PyError
  | typeError
deriving DecidableEq, Repr

/-- `BaseRequestHandler(...)`: the base class is abstract (`ABC` with the
abstract method `process`), so instantiating it raises `TypeError`
(which the factory test `test_invalid_api_endpoint_name` expects). -/
def instantiateBaseRequestHandler : Except PyError Handler :=
  Except.error PyError.typeError

/-- `RequestHandlerFactory.create_handler` (`request_handlers.py` lines
282-307): `handlerTypeDict[end_point]` instantiates the matching concrete
handler; an unknown key raises `KeyError`, the `except` catches it and
attempts `return BaseRequestHandler()`, which itself raises `TypeError`
inside the `except` block — so the call raises instead of returning. -/
def create_handler (end_point : String) : Except PyError Handler :=
  if end_point = API_ENDPOINT_SYMBOLS then Except.ok Handler.symbolsHandler
  else if end_point = API_ENDPOINT_APPEND then Except.ok Handler.appendHandler
  else if end_point = API_ENDPOINT_DATA then Except.ok Handler.dataHandler
  else instantiateBaseRequestHandler

/-! ## Concrete sample data used by counterexamples and witnesses -/

/-- A concrete daily bar parameterized by its offset `i`. -/
def sampleBar (i : Nat) : Bar :=
  { date := 100 + (i : Int)
    open_price := 1 + (i : Rat)
    high_price := 2 + (i : Rat)
    low_price := 1
    close_price := 2 + (i : Rat)
    adjusted_close := 1 + (i : Rat) / 2
    volume := 1000 }

/-- A store with one pending asset `AAPL` and no price rows: the state
right after a successful registration commit. -/
def dbRegistered : Db :=
  { assets := [{ id := 1, symbol := "AAPL", description := none,
                 processing_status := Status.pending }]
    pricePoints := [] }

/-- A store with one pending asset `AAPL` that already owns one committed
price row: the state left behind when bar storage committed but the
promotion step failed. -/
def dbPendingWithBars : Db :=
  { assets := [{ id := 1, symbol := "AAPL", description := none,
                 processing_status := Status.pending }]
    pricePoints := [mkPriceRow 1 (sampleBar 0)] }

/-- A store with two active assets, the first owning a single price row
(fewer than one window of history). -/
def dbTwoActive : Db :=
  { assets := [{ id := 1, symbol := "A", description := none,
                 processing_status := Status.active },
               { id := 2, symbol := "B", description := none,
                 processing_status := Status.active }]
    pricePoints := [mkPriceRow 1 (sampleBar 0)] }

/-- A store with one active asset owning exactly ten price rows —
a series of length `L = W = 10`. -/
def dbTenBars : Db :=
  { assets := [{ id := 1, symbol := "AAPL", description := none,
                 processing_status := Status.active }]
    pricePoints := (List.range 10).map (fun i => mkPriceRow 1 (sampleBar i)) }

/-! ## C10 -/

/-- C10: for every accepted price series, the feature matrix of every
window holds exactly the five base columns `open_price`, `high_price`,
`low_price`, `close_price`, `volume` in that order: the column list that
`_prepare_training_data` slices windows from (`existing_columns`)
evaluates to exactly those five names, while the six engineered columns
are all present in the frame produced by `_create_advanced_features`
(they are computed) yet none of them is selected as a feature — the
single malformed entry of `new_features` (line 111) is not a column
name. -/
theorem c10_features_are_base_columns_only :
    existing_columns =
      ["open_price", "high_price", "low_price", "close_price", "volume"]
    ∧ advancedColumns.all
        (fun c => dataColumnsAfterFeatures.contains c
          && !(existing_columns.contains c)) = true := by
  decide

/-! ## C8 -/

/-- C8: for every endpoint name other than the three recognized route
constants, `RequestHandlerFactory.create_handler` raises at construction
time (the `KeyError` fallback instantiates the abstract base class,
which raises `TypeError`); it never returns a usable handler object. -/
theorem c8_unknown_endpoint_fails_construction (end_point : String)
    (h1 : end_point ≠ API_ENDPOINT_SYMBOLS)
    (h2 : end_point ≠ API_ENDPOINT_APPEND)
    (h3 : end_point ≠ API_ENDPOINT_DATA) :
    create_handler end_point = Except.error PyError.typeError := by
  simp [create_handler, instantiateBaseRequestHandler, h1, h2, h3]

/-- Witness for C8 at the endpoint name used by
`test_invalid_api_endpoint_name`. -/
theorem c8_unknown_endpoint_fails_construction_witness :
    create_handler "oawihergpa9ehr0wf0few" = Except.error PyError.typeError :=
  c8_unknown_endpoint_fails_construction "oawihergpa9ehr0wf0few"
    (by decide) (by decide) (by decide)

/-! ## C2 -/

/-- C2: evaluation of the code at the failing input.  For an asset whose
ordered price series has length `L = W = 10`, the window-preparation
step produces zero windows and then `train_lstm_model` propagates the
`ValueError("No valid sequences could be created")` raised at
`lstm_model.py` line 154 to its caller — it does not skip the asset as a
logged no-op (the skip branch at lines 195-197 is unreachable). -/
theorem c2_short_series_raises_to_caller :
    (dbTenBars.pricePoints.filter (fun p => p.asset_id = 1)).length = sequence_length
    ∧ train_lstm_model 1 dbTenBars
        = Except.error "No valid sequences could be created" := by
  exact ⟨by decide, rfl⟩

/-! ## C1 -/

/-- Counterexample to C1: a concrete iteration of the Refresh Scheduler
loop over the snapshot `[(1, "A"), (2, "B")]` of active assets, where
asset 1 owns a single price row and the weekend fetch returns `None`.
Training asset 1 raises `ValueError`, which `DataAndModelUpdater._run`
does not catch (only the fetch helper has internal handlers), so the
exception escapes the loop body: the iteration ends in an error and
asset 2 — still unprocessed — is skipped, refuting the claim that a
training failure is caught and logged inside the loop body. -/
theorem c1_counterexample_training_error_escapes_loop :
    refreshIteration dbTwoActive (fun _ => DownloadResult.noneRes)
      = Except.error "No valid sequences could be created" := rfl

/-! ## C5 -/

/-- Counterexample to C5: first-time ingestion of `AAPL` where
`yf.download` returns an empty (non-`None`) frame.  Because
`_AppendHandler._fetch_from_yahoo_finance` checks only `data is None`
(line 167) and never checks emptiness, the empty batch commits
vacuously and the promotion block runs: the asset ends up
`processing_status="active"` while owning zero `PricePoint` rows,
refuting both the active-iff-has-a-bar invariant and the clause that a
zero-bar fetch never promotes. -/
theorem c5_counterexample_empty_fetch_promotes :
    (fetchFromYahooFinance dbRegistered "AAPL" (DownloadResult.frame [])
        (MetaResult.ok (some "Apple Inc."))).pricePoints = []
    ∧ (fetchFromYahooFinance dbRegistered "AAPL" (DownloadResult.frame [])
        (MetaResult.ok (some "Apple Inc."))).assets
      = [{ id := 1, symbol := "AAPL", description := some "Apple Inc.",
           processing_status := Status.active }] := ⟨rfl, rfl⟩

/-! ## C6 -/

/-- Counterexample to the retry clause of C6: a concrete store holding a
pending asset whose bars are already committed (the state after a failed
promotion).  The next scheduler iteration snapshots only
`processing_status="active"` assets, so its snapshot is empty and the
run returns with the store unchanged — the pending asset is not fetched,
not trained, and in particular its promotion is never retried (the
scheduler has no promotion step at all). -/
theorem c6_counterexample_scheduler_never_retries_promotion :
    activeAssets dbPendingWithBars = []
    ∧ refreshIteration dbPendingWithBars (fun _ => DownloadResult.frame [sampleBar 5])
      = Except.ok dbPendingWithBars := ⟨rfl, rfl⟩

/-! ## C9 -/

/-- C9: evaluation of the code at the failing input.  Registering
`["AAPL"]` dispatches first-time ingestion with
`threading.Thread(target=..., args=...).run()` — `Thread.run` calls the
target synchronously in the request thread (only `Thread.start` spawns)
— so the handler's return value, the 204 response, is produced only
after the external fetch completed: the state returned along with the
response already contains the fetched price row and the promoted asset,
refuting the fire-and-forget dispatch described by the claim. -/
theorem c9_registration_ingests_synchronously :
    appendProcess { assets := [], pricePoints := [] } 1 [ReqElem.str "AAPL"]
      (fun _ => DownloadResult.frame [sampleBar 0])
      (fun _ => MetaResult.ok (some "Apple Inc."))
    = (RespBody.emptyObj, 204,
       { assets := [{ id := 1, symbol := "AAPL", description := some "Apple Inc.",
                      processing_status := Status.active }]
         pricePoints := [mkPriceRow 1 (sampleBar 0)] }) := rfl

/-! ## C4 -/

/-- Helper for C4: the validation/staging loop returns `none` (the
rollback-and-400 exit) whenever a non-string element occurs anywhere in
the remaining request, whatever has been staged so far. -/
theorem registerLoop_eq_none_of_nonstr (db : Db) (elems : List ReqElem) :
    ∀ (nextId : Nat) (staged : List AssetRow) (toAnalyze : List String),
      ReqElem.nonstr ∈ elems →
      registerLoop db nextId staged toAnalyze elems = none := by
  induction elems with
  | nil =>
    intro _ _ _ h
    cases h
  | cons e rest ih =>
    intro nextId staged toAnalyze h
    cases e with
    | nonstr => rfl
    | str s =>
      have hrest : ReqElem.nonstr ∈ rest := by
        cases h with
        | tail _ h2 => exact h2
      simp only [registerLoop]
      split
      · exact ih _ _ _ hrest
      · exact ih _ _ _ hrest

/-- C4: for every store state and every registration batch holding a
non-string element at any position, `_AppendHandler.process` answers the
400 validation error and the store is exactly what it was — the rows
staged before the bad element are rolled back, so zero Asset rows of the
batch are committed. -/
theorem c4_invalid_batch_rolls_back (db : Db) (nextId : Nat)
    (request : List ReqElem) (dl : String → DownloadResult)
    (meta : String → MetaResult) (h : ReqElem.nonstr ∈ request) :
    appendProcess db nextId request dl meta
      = (RespBody.invalidSymbolError, 400, db) := by
  have hne : request.isEmpty = false := by
    cases request with
    | nil => cases h
    | cons a l => rfl
  simp only [appendProcess, hne, Bool.false_eq_true, if_false,
    registerLoop_eq_none_of_nonstr db request nextId [] [] h]

/-- Witness for C4: a batch whose second element is not a string; the
response is 400 and the store is unchanged. -/
theorem c4_invalid_batch_rolls_back_witness :
    appendProcess dbRegistered 2 [ReqElem.str "GOOGL", ReqElem.nonstr]
      (fun _ => DownloadResult.exn) (fun _ => MetaResult.exn)
      = (RespBody.invalidSymbolError, 400, dbRegistered) :=
  c4_invalid_batch_rolls_back dbRegistered 2 [ReqElem.str "GOOGL", ReqElem.nonstr]
    (fun _ => DownloadResult.exn) (fun _ => MetaResult.exn) (by decide)

/-- C1 as amended: exceptions raised while ingesting an asset are caught
inside the fetch helper (`schedFetchStep` is total, so it can never be
the source of an iteration failure), but an exception raised while
training is not caught in the loop body: every error that terminates a
refresh iteration is the error of `train_lstm_model` on some asset of
the snapshot, run on the store as it stood after that asset's fetch. -/
theorem c1_amended_iteration_error_only_from_training
    (dl : Nat → DownloadResult) (assets : List (Nat × String)) :
    ∀ (db : Db) (e : String),
      refreshIterationBody dl assets db = Except.error e →
      ∃ a ∈ assets, ∃ db1 : Db,
        train_lstm_model a.1 (schedFetchStep db1 a.1 (dl a.1)) = Except.error e := by
  induction assets with
  | nil =>
    intro db e h
    simp only [refreshIterationBody] at h
    cases h
  | cons a rest ih =>
    intro db e h
    simp only [refreshIterationBody] at h
    cases htr : train_lstm_model a.1 (schedFetchStep db a.1 (dl a.1)) with
    | error e2 =>
      rw [htr] at h
      cases h
      exact ⟨a, List.mem_cons_self a rest, db, htr⟩
    | ok db1 =>
      rw [htr] at h
      obtain ⟨b, hb, db2, hd⟩ := ih db1 e h
      exact ⟨b, List.mem_cons_of_mem a hb, db2, hd⟩

/-- Witness for the amended C1, at the snapshot `[(1, "A")]` over the
store `dbTwoActive` (asset 1 has one bar; the fetch returns `None`). -/
theorem c1_amended_iteration_error_only_from_training_witness :
    ∃ a ∈ [((1 : Nat), "A")], ∃ db1 : Db,
      train_lstm_model a.1
        (schedFetchStep db1 a.1 ((fun _ => DownloadResult.noneRes) a.1))
        = Except.error "No valid sequences could be created" :=
  c1_amended_iteration_error_only_from_training
    (fun _ => DownloadResult.noneRes) [((1 : Nat), "A")] dbTwoActive
    "No valid sequences could be created" rfl

/-- C5 as amended: promotion is decoupled from the presence of bars.  A
fetch that raises or yields `None` leaves the store untouched (the asset
is not promoted); but a fetch that yields a frame — even one with zero
bars — followed by a successful description step promotes the asset to
active and stores the description, while adding no price row.  Hence
`processing_status = active` does not imply the existence of a
`PricePoint` row. -/
theorem c5_amended_promotion_not_tied_to_bars (db : Db) (a : AssetRow)
    (symbol : String) (nm : Option String) (meta : MetaResult)
    (hfind : db.assets.find? (fun x => x.symbol = symbol) = some a) :
    fetchFromYahooFinance db symbol DownloadResult.exn meta = db
    ∧ fetchFromYahooFinance db symbol DownloadResult.noneRes meta = db
    ∧ (fetchFromYahooFinance db symbol (DownloadResult.frame [])
        (MetaResult.ok nm)).pricePoints = db.pricePoints
    ∧ (fetchFromYahooFinance db symbol (DownloadResult.frame [])
        (MetaResult.ok nm)).assets
      = db.assets.map (fun b =>
          if b.id = a.id then
            { b with processing_status := Status.active,
                     description := some (nm.getD "Description not available") }
          else b) := by
  refine ⟨?_, ?_, ?_, ?_⟩
  · simp only [fetchFromYahooFinance, hfind]
  · simp only [fetchFromYahooFinance, hfind]
  · simp [fetchFromYahooFinance, hfind, batchConflicts, keysNodup]
  · simp [fetchFromYahooFinance, hfind, batchConflicts, keysNodup]

/-- Witness for the amended C5 on the freshly registered store. -/
theorem c5_amended_promotion_not_tied_to_bars_witness :
    fetchFromYahooFinance dbRegistered "AAPL" DownloadResult.exn MetaResult.exn
      = dbRegistered
    ∧ fetchFromYahooFinance dbRegistered "AAPL" DownloadResult.noneRes MetaResult.exn
      = dbRegistered
    ∧ (fetchFromYahooFinance dbRegistered "AAPL" (DownloadResult.frame [])
        (MetaResult.ok (some "Apple Inc."))).pricePoints = dbRegistered.pricePoints
    ∧ (fetchFromYahooFinance dbRegistered "AAPL" (DownloadResult.frame [])
        (MetaResult.ok (some "Apple Inc."))).assets
      = dbRegistered.assets.map (fun b =>
          if b.id = 1 then
            { b with processing_status := Status.active,
                     description := some ((some "Apple Inc.").getD "Description not available") }
          else b) :=
  c5_amended_promotion_not_tied_to_bars dbRegistered
    { id := 1, symbol := "AAPL", description := none,
      processing_status := Status.pending }
    "AAPL" (some "Apple Inc.") MetaResult.exn rfl

/-- C6 as amended: when the bar-storage commit succeeds and the
promotion/description step fails, the committed rows stay in the store
(they are not rolled back) and the asset rows — in particular the
pending status — are exactly what they were; but promotion is not
retried by the next scheduled run: given that `id` is a primary key, the
still-pending asset is absent from the scheduler's active-assets
snapshot, and the scheduler has no promotion step at all. -/
theorem c6_amended_bars_survive_promotion_failure (db : Db) (a : AssetRow)
    (symbol : String) (bars : List Bar)
    (hfind : db.assets.find? (fun x => x.symbol = symbol) = some a)
    (hpend : a.processing_status = Status.pending)
    (hkey : ∀ b ∈ db.assets, b.id = a.id → b = a)
    (hnoconf : batchConflicts db (bars.map (mkPriceRow a.id)) = false) :
    (fetchFromYahooFinance db symbol (DownloadResult.frame bars)
        MetaResult.exn).pricePoints
      = db.pricePoints ++ bars.map (mkPriceRow a.id)
    ∧ (fetchFromYahooFinance db symbol (DownloadResult.frame bars)
        MetaResult.exn).assets = db.assets
    ∧ (a.id, a.symbol) ∉
        activeAssets (fetchFromYahooFinance db symbol (DownloadResult.frame bars)
          MetaResult.exn) := by
  have hres : fetchFromYahooFinance db symbol (DownloadResult.frame bars) MetaResult.exn
      = { db with pricePoints := db.pricePoints ++ bars.map (mkPriceRow a.id) } := by
    simp only [fetchFromYahooFinance, hfind, hnoconf, Bool.false_eq_true, if_false]
  refine ⟨by rw [hres], by rw [hres], ?_⟩
  rw [hres]
  intro hmem
  simp only [activeAssets, List.mem_map, List.mem_filter] at hmem
  obtain ⟨b, ⟨hbmem, hbact⟩, hbeq⟩ := hmem
  have hbid : b.id = a.id := congrArg Prod.fst hbeq
  have hba : b = a := hkey b hbmem hbid
  rw [hba, hpend] at hbact
  exact absurd hbact (by decide)

/-- Witness for the amended C6 on the freshly registered store with a
one-bar fetch. -/
theorem c6_amended_bars_survive_promotion_failure_witness :
    (fetchFromYahooFinance dbRegistered "AAPL" (DownloadResult.frame [sampleBar 0])
        MetaResult.exn).pricePoints
      = dbRegistered.pricePoints ++ [sampleBar 0].map (mkPriceRow 1)
    ∧ (fetchFromYahooFinance dbRegistered "AAPL" (DownloadResult.frame [sampleBar 0])
        MetaResult.exn).assets = dbRegistered.assets
    ∧ ((1 : Nat), "AAPL") ∉
        activeAssets (fetchFromYahooFinance dbRegistered "AAPL"
          (DownloadResult.frame [sampleBar 0]) MetaResult.exn) :=
  c6_amended_bars_survive_promotion_failure dbRegistered
    { id := 1, symbol := "AAPL", description := none,
      processing_status := Status.pending }
    "AAPL" [sampleBar 0] rfl rfl
    (by intro b hb hid; simp only [dbRegistered, List.mem_singleton] at hb; exact hb)
    rfl

/-! ## C3 -/

/-- Helper: in a batch whose keys are pairwise distinct, exactly one row
carries any key that occurs in the batch. -/
theorem filter_key_length_one (k : Nat × Int × Source) :
    ∀ rows : List PricePointRow,
      keysNodup (rows.map ppKey) = true →
      k ∈ rows.map ppKey →
      (rows.filter (fun q => ppKey q = k)).length = 1 := by
  intro rows
  induction rows with
  | nil =>
    intro _ hk
    cases hk
  | cons r rest ih =>
    intro hnd hk
    rw [List.map_cons] at hnd hk
    simp only [keysNodup, Bool.and_eq_true, Bool.not_eq_true',
      decide_eq_false_iff_not] at hnd
    obtain ⟨hnotin, hnd2⟩ := hnd
    rcases List.mem_cons.mp hk with hke | hkrest
    · have hk2 : ppKey r = k := hke.symm
      have hfilter : rest.filter (fun q => ppKey q = k) = [] := by
        rw [List.filter_eq_nil_iff]
        intro q hq hpq
        have hqk : ppKey q = k := of_decide_eq_true hpq
        exact hnotin (hk2 ▸ hqk ▸ List.mem_map_of_mem ppKey hq)
      have hcons : List.filter (fun q => decide (ppKey q = k)) (r :: rest)
          = r :: List.filter (fun q => decide (ppKey q = k)) rest := by
        simp [List.filter_cons, hk2]
      rw [hcons, hfilter]
      rfl
    · have hne : ppKey r ≠ k := by
        intro heq
        exact hnotin (heq ▸ hkrest)
      have hcons : List.filter (fun q => decide (ppKey q = k)) (r :: rest)
          = List.filter (fun q => decide (ppKey q = k)) rest := by
        simp [List.filter_cons, hne]
      rw [hcons]
      exact ih hnd2 hkrest

/-- C3: ingesting the same bar set twice for the same asset is
idempotent.  The first run commits the batch; in the second run the
`commit` hits the `(asset_id, date, source)` uniqueness constraint, the
`except IntegrityError` branch rolls the batch back and continues
(`schedFetchStep` is a total function — the conflict is not a fatal
failure), so after both runs the store holds exactly one row per key of
the batch. -/
theorem c3_ingest_twice_idempotent (db : Db) (assetId : Nat) (bars : List Bar)
    (hnodup : keysNodup ((bars.map (mkPriceRow assetId)).map ppKey) = true)
    (hfresh : ∀ q ∈ db.pricePoints, ∀ r ∈ bars.map (mkPriceRow assetId),
      ppKey q ≠ ppKey r) :
    ∀ k ∈ (bars.map (mkPriceRow assetId)).map ppKey,
      ((schedFetchStep (schedFetchStep db assetId (DownloadResult.frame bars))
          assetId (DownloadResult.frame bars)).pricePoints.filter
        (fun q => ppKey q = k)).length = 1 := by
  intro k hk
  set rows := bars.map (mkPriceRow assetId) with hrows
  have hbne : bars.isEmpty = false := by
    cases bars with
    | nil =>
      rw [hrows] at hk
      cases hk
    | cons b bs => rfl
  obtain ⟨r0, hr0, hr0k⟩ : ∃ r ∈ rows, ppKey r = k := by
    simpa using hk
  have h1 : rows.any (fun r => db.pricePoints.any (fun q => ppKey q = ppKey r))
      = false := by
    rw [List.any_eq_false]
    intro r hr
    simp only [List.any_eq_true, decide_eq_true_eq, not_exists, not_and]
    exact fun q hq => hfresh q hq r hr
  have hconf1 : batchConflicts db rows = false := by
    simp only [batchConflicts, h1, hnodup, Bool.not_true, Bool.or_self]
  have hstep1 : schedFetchStep db assetId (DownloadResult.frame bars)
      = { db with pricePoints := db.pricePoints ++ rows } := by
    simp only [schedFetchStep, hbne, Bool.false_eq_true, if_false,
      commitPriceBatch, hconf1, ← hrows]
  have hconf2 :
      batchConflicts { db with pricePoints := db.pricePoints ++ rows } rows
        = true := by
    simp only [batchConflicts, Bool.or_eq_true, List.any_eq_true]
    left
    exact ⟨r0, hr0, r0, List.mem_append_right _ hr0, by simp⟩
  have hstep2 :
      schedFetchStep { db with pricePoints := db.pricePoints ++ rows } assetId
        (DownloadResult.frame bars)
      = { db with pricePoints := db.pricePoints ++ rows } := by
    simp only [schedFetchStep, hbne, Bool.false_eq_true, if_false,
      commitPriceBatch, hconf2, if_true, ← hrows]
  rw [hstep1, hstep2]
  show ((db.pricePoints ++ rows).filter (fun q => ppKey q = k)).length = 1
  rw [List.filter_append, List.length_append]
  have hdb0 : (db.pricePoints.filter (fun q => ppKey q = k)).length = 0 := by
    rw [List.length_eq_zero, List.filter_eq_nil_iff]
    intro q hq hdq
    exact hfresh q hq r0 hr0 ((of_decide_eq_true hdq).trans hr0k.symm)
  rw [hdb0, filter_key_length_one k rows hnodup hk]

/-- Witness for C3: one fresh bar ingested twice into the registered
store leaves exactly one row carrying that bar's key. -/
theorem c3_ingest_twice_idempotent_witness :
    ((schedFetchStep (schedFetchStep dbRegistered 1
        (DownloadResult.frame [sampleBar 0])) 1
        (DownloadResult.frame [sampleBar 0])).pricePoints.filter
      (fun q => ppKey q = ppKey (mkPriceRow 1 (sampleBar 0)))).length = 1 :=
  c3_ingest_twice_idempotent dbRegistered 1 [sampleBar 0] rfl
    (by intro q hq; cases hq)
    (ppKey (mkPriceRow 1 (sampleBar 0))) (by simp)

/-! ## C7 -/

/-- `true` iff no cell of the row is NaN. -/
def rowFinite (r : TrainRow) : Bool :=
  r.open_price.isSome && r.high_price.isSome && r.low_price.isSome &&
  r.close_price.isSome && r.adjusted_close.isSome && r.volume.isSome

theorem min?_isSome_of_ne_nil (l : List Rat) (h : l ≠ []) :
    ∃ lo, l.min? = some lo := by
  cases l with
  | nil => exact absurd rfl h
  | cons a as => exact ⟨_, rfl⟩

theorem max?_isSome_of_ne_nil (l : List Rat) (h : l ≠ []) :
    ∃ hi, l.max? = some hi := by
  cases l with
  | nil => exact absurd rfl h
  | cons a as => exact ⟨_, rfl⟩

theorem scaleColumn_length (xs : List (Option Rat)) :
    (scaleColumn xs).length = xs.length := by
  rw [scaleColumn]
  split <;> simp

theorem scaleColumn_all_some (xs : List (Option Rat))
    (h : ∀ x ∈ xs, x.isSome = true) :
    ∀ y ∈ scaleColumn xs, y.isSome = true := by
  cases xs with
  | nil =>
    intro y hy
    simp [scaleColumn] at hy
  | cons x0 xs0 =>
    have h0 : x0.isSome = true := h x0 (List.mem_cons_self _ _)
    obtain ⟨v0, hv0⟩ := Option.isSome_iff_exists.mp h0
    have hfinmem : v0 ∈ (x0 :: xs0).filterMap id := by
      rw [List.mem_filterMap]
      exact ⟨some v0, hv0 ▸ List.mem_cons_self _ _, rfl⟩
    obtain ⟨lo, hlo⟩ := min?_isSome_of_ne_nil _ (List.ne_nil_of_mem hfinmem)
    obtain ⟨hi, hhi⟩ := max?_isSome_of_ne_nil _ (List.ne_nil_of_mem hfinmem)
    intro y hy
    rw [scaleColumn] at hy
    rw [hlo, hhi] at hy
    obtain ⟨x, hx, rfl⟩ := List.mem_map.mp hy
    obtain ⟨v, rfl⟩ := Option.isSome_iff_exists.mp (h x hx)
    rfl

theorem getD_isSome_of_all_some :
    ∀ (xs : List (Option Rat)), (∀ x ∈ xs, x.isSome = true) →
      ∀ i, i < xs.length → (xs.getD i none).isSome = true := by
  intro xs
  induction xs with
  | nil =>
    intro _ i hi
    exact absurd hi (by simp)
  | cons x xs ih =>
    intro h i hi
    cases i with
    | zero => exact h x (List.mem_cons_self _ _)
    | succ n =>
      exact ih (fun a ha => h a (List.mem_cons_of_mem _ ha)) n
        (by simpa [Nat.succ_lt_succ_iff] using hi)

theorem scaleColumn_getD_isSome (xs : List (Option Rat))
    (h : ∀ x ∈ xs, x.isSome = true) (i : Nat) (hi : i < xs.length) :
    ((scaleColumn xs).getD i none).isSome = true :=
  getD_isSome_of_all_some _ (scaleColumn_all_some xs h) i
    (by rw [scaleColumn_length]; exact hi)

theorem isNone_eq_false_of_isSome (c : Option Rat) (h : c.isSome = true) :
    c.isNone = false := by
  cases c with
  | none => cases h
  | some v => rfl

theorem getD_map_range {α : Type} (n : Nat) (f : Nat → α) (d : α) (i : Nat)
    (hi : i < n) : ((List.range n).map f).getD i d = f i := by
  rw [List.getD_eq_getElem _ _ (by simpa using hi)]
  simp

/-- The concrete column selection of the embedded
`_prepare_training_data`: slicing `existing_columns` out of the frame
yields exactly the five scaled base feature columns. -/
theorem scaledFeatureRows_cols (rows : List TrainRow) :
    existing_columns.filterMap
        (fun n => (fieldOfColumn n).map (fun f => scaleColumn (rows.map f)))
      = [scaleColumn (rows.map fun r => r.open_price),
         scaleColumn (rows.map fun r => r.high_price),
         scaleColumn (rows.map fun r => r.low_price),
         scaleColumn (rows.map fun r => r.close_price),
         scaleColumn (rows.map fun r => r.volume)] := rfl

/-- C7: on a chronologically ordered price series without NaN cells, the
sequence-building loop produces exactly `max(0, L - 10)` windows (`Nat`
subtraction is truncated), the `i`-th window is the ten consecutive
scaled feature rows starting at step `i`, and its target is the
normalized `adjusted_close` of step `i + 10`, the time-step immediately
following the window. -/
theorem c7_windowize_count_and_target (rows : List TrainRow)
    (hfin : ∀ r ∈ rows, rowFinite r = true) :
    (makeSequences rows).1.length = rows.length - sequence_length
    ∧ (∀ i, i < rows.length - sequence_length →
        (makeSequences rows).1.getD i []
          = ((scaledFeatureRows rows).drop i).take sequence_length)
    ∧ ∀ i, i < rows.length - sequence_length →
        (makeSequences rows).2.getD i none
          = (targetColumn rows).getD (i + sequence_length) none := by
  have hfin6 : ∀ r ∈ rows, r.open_price.isSome = true
      ∧ r.high_price.isSome = true ∧ r.low_price.isSome = true
      ∧ r.close_price.isSome = true ∧ r.adjusted_close.isSome = true
      ∧ r.volume.isSome = true := by
    intro r hr
    have hb := hfin r hr
    simp only [rowFinite, Bool.and_eq_true] at hb
    tauto
  have hallsome : ∀ (f : TrainRow → Option Rat),
      (∀ r ∈ rows, (f r).isSome = true) →
      ∀ i, i < rows.length →
        ((scaleColumn (rows.map f)).getD i none).isSome = true := by
    intro f hf i hi
    apply scaleColumn_getD_isSome
    · intro x hx
      obtain ⟨r, hr, rfl⟩ := List.mem_map.mp hx
      exact hf r hr
    · rw [List.length_map]
      exact hi
  have hpred : ∀ i ∈ List.range (rows.length - sequence_length),
      (!(seqHasNaN (((scaledFeatureRows rows).drop i).take sequence_length)
        || ((targetColumn rows).getD (i + sequence_length) none).isNone))
        = true := by
    intro i hi
    rw [List.mem_range] at hi
    have hi10 : i + sequence_length < rows.length := by omega
    have htgt : ((targetColumn rows).getD (i + sequence_length) none).isSome
        = true :=
      hallsome (fun r => r.adjusted_close)
        (fun r hr => (hfin6 r hr).2.2.2.2.1) _ hi10
    have hseq : seqHasNaN
        (((scaledFeatureRows rows).drop i).take sequence_length) = false := by
      rw [seqHasNaN, List.any_eq_false]
      intro w hw
      have hw2 : w ∈ scaledFeatureRows rows :=
        List.mem_of_mem_drop (List.mem_of_mem_take hw)
      rw [scaledFeatureRows] at hw2
      obtain ⟨k, hk, rfl⟩ := List.mem_map.mp hw2
      rw [List.mem_range] at hk
      simp only [List.any_eq_true, not_exists, not_and]
      intro c hc
      rw [scaledFeatureRows_cols rows] at hc
      simp only [List.map_cons, List.map_nil, List.mem_cons,
        List.not_mem_nil, or_false] at hc
      have hcsome : c.isSome = true := by
        rcases hc with hc | hc | hc | hc | hc
        · exact hc ▸ hallsome (fun r => r.open_price)
            (fun r hr => (hfin6 r hr).1) k hk
        · exact hc ▸ hallsome (fun r => r.high_price)
            (fun r hr => (hfin6 r hr).2.1) k hk
        · exact hc ▸ hallsome (fun r => r.low_price)
            (fun r hr => (hfin6 r hr).2.2.1) k hk
        · exact hc ▸ hallsome (fun r => r.close_price)
            (fun r hr => (hfin6 r hr).2.2.2.1) k hk
        · exact hc ▸ hallsome (fun r => r.volume)
            (fun r hr => (hfin6 r hr).2.2.2.2.2) k hk
      rw [isNone_eq_false_of_isSome c hcsome]
      exact Bool.false_ne_true
    rw [hseq, isNone_eq_false_of_isSome _ htgt]
    rfl
  have hkept : (List.range (rows.length - sequence_length)).filter
      (fun i =>
        !(seqHasNaN (((scaledFeatureRows rows).drop i).take sequence_length)
          || ((targetColumn rows).getD (i + sequence_length) none).isNone))
      = List.range (rows.length - sequence_length) :=
    List.filter_eq_self.mpr hpred
  have hkeq : makeSequences rows
      = ((List.range (rows.length - sequence_length)).map
          (fun i => ((scaledFeatureRows rows).drop i).take sequence_length),
        (List.range (rows.length - sequence_length)).map
          (fun i => (targetColumn rows).getD (i + sequence_length) none)) := by
    simp only [makeSequences]
    rw [hkept]
  rw [hkeq]
  refine ⟨by simp, fun i hi => ?_, fun i hi => ?_⟩
  · exact getD_map_range _ _ _ i hi
  · exact getD_map_range _ _ _ i hi

/-- The twelve-step sample series used by the C7 witness. -/
def sampleRows12 : List TrainRow :=
  (List.range 12).map (fun i => toTrainRow (mkPriceRow 1 (sampleBar i)))

/-- Witness for C7 on a series of length 12: two windows, targeted at
steps 10 and 11. -/
theorem c7_windowize_count_and_target_witness :
    (makeSequences sampleRows12).1.length
      = sampleRows12.length - sequence_length
    ∧ (∀ i, i < sampleRows12.length - sequence_length →
        (makeSequences sampleRows12).1.getD i []
          = ((scaledFeatureRows sampleRows12).drop i).take sequence_length)
    ∧ ∀ i, i < sampleRows12.length - sequence_length →
        (makeSequences sampleRows12).2.getD i none
          = (targetColumn sampleRows12).getD (i + sequence_length) none :=
  c7_windowize_count_and_target sampleRows12 (by decide)

end Fintel
